import Mathlib

/-!
Verification of the transcript-analysis core of the AI-Speech-Coach
repository: a shallow embedding in Lean 4 of the analyzer components
(filler-word detection, pace computation, vocabulary diversity) and the
aggregating service, together with theorems settling the specification
claims about them.

Modelling conventions:
 - Python floats are modelled as rationals; the one genuinely irrational
   operation, the numpy standard deviation, is modelled as a real number
   obtained as the square root of an exactly computed rational variance.
 - Python dictionaries used as output records are modelled as association
   lists of string keys, so that presence or absence of a key is faithfully
   represented.
 - Text processing (lowercasing, whitespace splitting, the regular
   expression used for whole-word filler matching) is modelled directly on
   the character lists underlying Lean strings.
-/

namespace SpeechCoach

/-! ## Shared word counting (filler_words.py, count_words; pace.py, text.split) -/

/-- Python str.split with no arguments: split on whitespace runs, dropping
empty pieces. -/
def pySplit (s : String) : List String :=
  (s.split Char.isWhitespace).filter (fun w => w ≠ "")

/-- Embeds count_words from filler_words.py: zero for the empty string,
otherwise the number of whitespace-separated words. -/
def count_words (text : String) : Nat :=
  if text = "" then 0 else (pySplit text).length

/-! ## PaceAnalyzer (pace.py) -/

/-- Rounding to one decimal place, modelling the Python round(x, 1) used by
calculate_words_per_minute. -/
def round1 (q : ℚ) : ℚ := (round (q * 10) : ℚ) / 10

/-- Embeds PaceAnalyzer.calculate_words_per_minute: zero for non-positive
durations, otherwise word count divided by the duration in minutes, rounded
to one decimal. -/
def calculate_words_per_minute (word_count : Nat) (duration_seconds : ℚ) : ℚ :=
  if duration_seconds ≤ 0 then 0
  else round1 ((word_count : ℚ) / (duration_seconds / 60))

/-- A transcript segment, embedding the dictionary shape consumed by the
analyzers: text content, start and end times in seconds, the user-speaking
flag (defaulting to false as in segment.get), and an optional id. -/
structure Segment where
  text_content : String
  start_time : ℚ
  end_time : ℚ
  is_user_speaking : Bool := false
  segment_id : Option Nat := none
  deriving DecidableEq

/-- Duration of a segment in seconds: end minus start.  The source computes
this uniformly for datetime and float representations; both reduce to this
subtraction in seconds. -/
def segDuration (s : Segment) : ℚ := s.end_time - s.start_time

/-- Word count of a segment text, embedding len(text.split()). -/
def segWordCount (s : Segment) : Nat := (pySplit s.text_content).length

/-- One entry of the per-segment pace list built by analyze_segments. -/
structure SegmentPace where
  segment_id : Option Nat
  wpm : ℚ
  duration_seconds : ℚ
  word_count : Nat
  deriving DecidableEq

/-- Embeds PaceAnalyzer.PACE_RANGES in declaration order; the upper bound
none models the float infinity of the too_fast band. -/
def PACE_RANGES : List (String × ℚ × Option ℚ) :=
  [("too_slow", 0, some 120),
   ("slow", 120, some 150),
   ("optimal", 150, some 180),
   ("fast", 180, some 210),
   ("too_fast", 210, none)]

/-- Band membership test min_pace ≤ v < max_pace used in the classification
loop of analyze_segments. -/
def paceBandContains (v : ℚ) (band : String × ℚ × Option ℚ) : Bool :=
  decide (band.2.1 ≤ v) &&
    (match band.2.2 with
     | some hi => decide (v < hi)
     | none => true)

/-- Embeds the category-selection loop of analyze_segments: the category
starts as optimal and the loop breaks at the first band containing the
value. -/
def classifyPace (v : ℚ) : String :=
  match PACE_RANGES.find? (paceBandContains v) with
  | some band => band.1
  | none => "optimal"

/-- Population mean of a list of rationals (division by zero yields zero for
the empty list, as in Lean rational division). -/
def popMean (xs : List ℚ) : ℚ := xs.sum / (xs.length : ℚ)

/-- Population variance: mean of squared deviations from the mean. -/
def popVariance (xs : List ℚ) : ℚ :=
  ((xs.map (fun x => (x - popMean xs) ^ 2)).sum) / (xs.length : ℚ)

/-- Models numpy std as used on the per-segment WPM list: the population
standard deviation, the square root of the population variance. -/
noncomputable def npStd (xs : List ℚ) : ℝ := Real.sqrt ((popVariance xs : ℚ) : ℝ)

/-- The per-segment record appended by the loop of analyze_segments for a
segment of positive duration. -/
def mkSegPace (s : Segment) : SegmentPace :=
  { segment_id := s.segment_id
    wpm := calculate_words_per_minute (segWordCount s) (segDuration s)
    duration_seconds := segDuration s
    word_count := segWordCount s }

/-- One iteration of the accumulation loop of analyze_segments: add the
word count and the duration to the running totals and, when the duration is
positive, append the per-segment pace record. -/
def paceStep (acc : Nat × ℚ × List SegmentPace) (s : Segment) :
    Nat × ℚ × List SegmentPace :=
  ( acc.1 + segWordCount s,
    acc.2.1 + segDuration s,
    if 0 < segDuration s then acc.2.2 ++ [mkSegPace s] else acc.2.2 )

/-- Result record of PaceAnalyzer.analyze_segments. -/
structure PaceReport where
  avg_wpm : ℚ
  pace_variability : ℝ
  pace_category : String
  segment_paces : List SegmentPace

/-- Embeds PaceAnalyzer.analyze_segments: the no-data record on empty
input; otherwise the loop accumulates totals and per-segment paces, the
aggregate WPM comes from the totals over all segments, the variability is
the numpy standard deviation of the recorded per-segment WPMs when at
least two were recorded and zero otherwise, and the category classifies
the aggregate WPM. -/
noncomputable def analyze_segments (segments : List Segment) : PaceReport :=
  if segments.isEmpty then
    { avg_wpm := 0, pace_variability := 0, pace_category := "no_data", segment_paces := [] }
  else
    let acc := segments.foldl paceStep (0, 0, [])
    let avg_wpm := calculate_words_per_minute acc.1 acc.2.1
    let pace_variability : ℝ :=
      if 1 < acc.2.2.length then npStd (acc.2.2.map SegmentPace.wpm) else 0
    { avg_wpm := avg_wpm
      pace_variability := pace_variability
      pace_category := classifyPace avg_wpm
      segment_paces := acc.2.2 }

/-! ## FillerWordAnalyzer (filler_words.py)

The analyzer compiles a single case-insensitive pattern alternating all
lexicon entries, each wrapped in word-boundary anchors, and scans the
lowercased text with findall.  The scan is modelled directly: positions are
tried left to right; at each position the alternatives are tried in lexicon
order; a successful match is recorded and scanning resumes after it.  Since
every lexicon entry begins and ends with a word character, the boundary
anchor at an edge holds exactly when the adjacent character, if any, is not
a word character. -/

/-- Embeds COMMON_FILLER_WORDS in dictionary insertion order, which is the
alternation order of the compiled pattern. -/
def FILLER_PHRASES : List String :=
  ["um", "uh", "like", "you know", "sort of", "kind of", "basically",
   "actually", "literally", "i mean", "right", "okay", "so", "well", "just"]

/-- Word characters in the sense of the regular-expression word-boundary
anchor: letters, digits and the underscore. -/
def isWordChar (c : Char) : Bool := c.isAlphanum || c = '_'

/-- Whether the character at index j of s exists and is a word character. -/
def wordCharAt (s : List Char) (j : Nat) : Bool :=
  match s.get? j with
  | some c => isWordChar c
  | none => false

/-- The anchored phrase p matches at index i of s: p is a prefix of the
suffix of s at i, and word boundaries hold at both edges of the match. -/
def matchesAt (s : List Char) (i : Nat) (p : List Char) : Bool :=
  p.isPrefixOf (s.drop i) &&
    (i = 0 || !wordCharAt s (i - 1)) &&
    !wordCharAt s (i + p.length)

/-- Fuel-driven scan of the alternation pattern over s starting at index i:
at each position the phrases are tried in alternation order; on a match the
matched phrase is recorded and the scan resumes after it, otherwise the scan
advances one character.  The fuel bounds the number of steps; every step
advances the position by at least one, so fuel exceeding the length of s is
sufficient. -/
def findAllAux (s : List Char) : Nat → Nat → List String
  | _, 0 => []
  | i, fuel + 1 =>
    match FILLER_PHRASES.find? (fun p => matchesAt s i p.data) with
    | some p => p :: findAllAux s (i + p.length) fuel
    | none => findAllAux s (i + 1) fuel

/-- All non-overlapping matches of the filler pattern in s, left to right. -/
def findAll (s : List Char) : List String := findAllAux s 0 (s.length + 1)

/-- Models Python str.lower, character by character. -/
def pyLower (s : String) : String := ⟨s.data.map Char.toLower⟩

/-- Increment the counter of key k in an association list, appending the
key at the end on first occurrence, as Python dictionary insertion does. -/
def bump (d : List (String × Nat)) (k : String) : List (String × Nat) :=
  match d with
  | [] => [(k, 1)]
  | (k2, v) :: rest => if k2 = k then (k2, v + 1) :: rest else (k2, v) :: bump rest k

/-- Embeds FillerWordAnalyzer.analyze_text: empty text yields the empty
count dictionary; otherwise the lowercased text is scanned with the filler
pattern, each match (lowercased again, as in the source) increments its
counter, and the total is the sum of all counters. -/
def analyze_text (text : String) : List (String × Nat) × Nat :=
  if text = "" then ([], 0)
  else
    let found := findAll (pyLower text).data
    let filler_count := found.foldl (fun d m => bump d (pyLower m)) []
    (filler_count, (filler_count.map Prod.snd).sum)

/-- Embeds FillerWordAnalyzer.get_filler_percentage: zero when there are no
words, otherwise the ratio of fillers to words times one hundred. -/
def get_filler_percentage (filler_count : Nat) (total_words : Nat) : ℚ :=
  if total_words = 0 then 0
  else ((filler_count : ℚ) / (total_words : ℚ)) * 100

/-! ## Suggestions (shared record shape) -/

/-- A suggestion record as produced by every analyzer. -/
structure Suggestion where
  suggestion_type : String
  suggestion_text : String
  priority_level : Nat
  example_text : Option String := none
  improved_example : Option String := none

/-- A single-quote character built from its code point, used to reproduce
the quoting in the Python suggestion strings. -/
def sq : String := String.singleton (Char.ofNat 39)

/-- Wrap a phrase in single quotes as the Python format strings do. -/
def pyQuote (s : String) : String := sq ++ s ++ sq

/-- Models Python str.strip: drop leading and trailing whitespace. -/
def pyStrip (s : String) : String :=
  ⟨((s.data.dropWhile Char.isWhitespace).reverse.dropWhile Char.isWhitespace).reverse⟩

/-- Sentence chunks of a text: the pieces ended by one of . ! ?, each
including its terminator.  A trailing piece with no terminator is dropped,
mirroring the sentence pattern of generate_improvement_suggestions, which
requires a terminating punctuation character. -/
def sentenceChunksAux : List Char → List Char → List (List Char)
  | [], _ => []
  | c :: cs, acc =>
    if c = '.' || c = '!' || c = '?' then
      (acc.reverse ++ [c]) :: sentenceChunksAux cs []
    else
      sentenceChunksAux cs (c :: acc)

/-- Sentence chunks of a whole character list. -/
def sentenceChunks (s : List Char) : List (List Char) := sentenceChunksAux s []

/-- Case-insensitive whole-word containment of a phrase in a chunk, used to
locate an example sentence for the most common filler. -/
def chunkContains (c : List Char) (phrase : String) : Bool :=
  (List.range (c.length + 1)).any (fun i => matchesAt (c.map Char.toLower) i phrase.data)

/-- Fuel-driven case-insensitive whole-word replacement of a phrase by the
placeholder, modelling the re.sub call that builds the improved example. -/
def replacePhraseAux (s p : List Char) : Nat → Nat → List Char
  | _, 0 => []
  | i, fuel + 1 =>
    if h : i < s.length then
      if matchesAt (s.map Char.toLower) i p then
        "[pause]".data ++ replacePhraseAux s p (i + p.length) fuel
      else
        s.get ⟨i, h⟩ :: replacePhraseAux s p (i + 1) fuel
    else []

/-- Replace every whole-word occurrence of a phrase with the placeholder. -/
def replacePhrase (s : List Char) (p : List Char) : List Char :=
  replacePhraseAux s p 0 (s.length + 1)

/-- Locate the first sentence containing the phrase and produce the example
and its improved variant, modelling the example-extraction block of
FillerWordAnalyzer.generate_improvement_suggestions.  The sentence pattern
is modelled at chunk granularity; no claim depends on the example text. -/
def fillerExample (phrase : String) (text : String) : Option (String × String) :=
  match (sentenceChunks text.data).find? (fun c => chunkContains c phrase) with
  | some chunk =>
    let ex := pyStrip ⟨chunk⟩
    some (ex, ⟨replacePhrase ex.data phrase.data⟩)
  | none => none

/-- Embeds FillerWordAnalyzer.generate_improvement_suggestions: sort the
count dictionary by count descending (stably), emit one suggestion for the
most common filler with priority clamped from count div three and, when the
source text is available, an example sentence with its improved variant;
when more than one distinct filler occurs, append a second suggestion naming
up to the three most frequent fillers with priority clamped from the total
div five. -/
def filler_generate_improvement_suggestions
    (filler_analysis : List (String × Nat)) (total_fillers : Nat)
    (text : String) : List Suggestion :=
  let sorted_fillers := filler_analysis.mergeSort (fun a b => b.2 ≤ a.2)
  match sorted_fillers with
  | [] => []
  | (most_common_filler, count) :: rest =>
    let base : Suggestion :=
      { suggestion_type := "filler_words"
        suggestion_text :=
          "Replace " ++ pyQuote most_common_filler ++
            " with strategic pauses to sound more confident."
        priority_level := min 5 (max 1 (count / 3)) }
    let first :=
      if text ≠ "" then
        match fillerExample most_common_filler text with
        | some (ex, imp) =>
          { base with example_text := some ex, improved_example := some imp }
        | none => base
      else base
    let second : List Suggestion :=
      if rest ≠ [] then
        let filler_list :=
          String.intercalate ", " ((sorted_fillers.take 3).map (fun p => pyQuote p.1))
        [{ suggestion_type := "filler_words"
           suggestion_text :=
             "Practice reducing filler words like " ++ filler_list ++
               " by speaking more slowly and deliberately."
           priority_level := min 4 (max 1 (total_fillers / 5)) }]
      else []
    first :: second

/-! ## Pace suggestions (pace.py, generate_improvement_suggestions) -/

/-- Format a real number of WPM to one decimal, modelling the Python format
specifier used for the variability; rendered as tenths since an exact
decimal printer for reals is not needed by any claim. -/
noncomputable def fmtR1 (x : ℝ) : String := toString (⌊x * 10 + 1 / 2⌋ : ℤ)

/-- Embeds PaceAnalyzer.generate_improvement_suggestions: no suggestions on
the no-data category; otherwise at most one suggestion keyed by the pace
category, followed by at most one variability suggestion (consistency when
the variability exceeds thirty, dynamics when it is below ten and the
aggregate WPM exceeds one hundred). -/
noncomputable def pace_generate_improvement_suggestions
    (pace_analysis : PaceReport) : List Suggestion :=
  if pace_analysis.pace_category = "no_data" then []
  else
    let avg_wpm := pace_analysis.avg_wpm
    let categorySugs : List Suggestion :=
      if pace_analysis.pace_category = "too_slow" then
        [{ suggestion_type := "pace"
           suggestion_text :=
             "Your pace of " ++ toString avg_wpm ++
               " words per minute is too slow, which may cause listeners to lose interest. Aim to increase your speaking pace slightly."
           priority_level := 4 }]
      else if pace_analysis.pace_category = "slow" then
        [{ suggestion_type := "pace"
           suggestion_text :=
             "Your pace of " ++ toString avg_wpm ++
               " words per minute is on the slower side. For most contexts, you could speak a bit faster to maintain engagement."
           priority_level := 3 }]
      else if pace_analysis.pace_category = "fast" then
        [{ suggestion_type := "pace"
           suggestion_text :=
             "Your pace of " ++ toString avg_wpm ++
               " words per minute is slightly fast. Consider slowing down a bit to ensure clarity."
           priority_level := 3 }]
      else if pace_analysis.pace_category = "too_fast" then
        [{ suggestion_type := "pace"
           suggestion_text :=
             "Your pace of " ++ toString avg_wpm ++
               " words per minute is too fast, making it difficult for listeners to follow. Try to slow down and include more pauses."
           priority_level := 5 }]
      else []
    let variabilitySugs : List Suggestion :=
      if pace_analysis.pace_variability > 30 then
        [{ suggestion_type := "pace_consistency"
           suggestion_text :=
             "Your speaking pace varies significantly (±" ++
               fmtR1 pace_analysis.pace_variability ++
               " WPM). Work on maintaining a more consistent pace for clarity."
           priority_level := 3 }]
      else if pace_analysis.pace_variability < 10 ∧ avg_wpm > 100 then
        [{ suggestion_type := "pace_dynamics"
           suggestion_text :=
             "Your speaking pace is very uniform. Using some pace variation can make your speech more engaging."
           priority_level := 2 }]
      else []
    categorySugs ++ variabilitySugs

/-! ## Vocabulary diversity (analyzer_service.py, the diversity path) -/

/-- Models NLTK word_tokenize for the diversity path, which the repository
calls as an external library: maximal alphanumeric runs become tokens and
every other non-whitespace character becomes a single-character token.
This agrees with the library on the plain texts the claims mention; the
spec describes it as tokenization at language-agnostic word boundaries with
punctuation kept as separate tokens. -/
def word_tokenize_aux : List Char → List Char → List String
  | [], acc => if acc = [] then [] else [⟨acc.reverse⟩]
  | c :: cs, acc =>
    if c.isAlphanum then word_tokenize_aux cs (c :: acc)
    else if c.isWhitespace then
      (if acc = [] then word_tokenize_aux cs []
       else ⟨acc.reverse⟩ :: word_tokenize_aux cs [])
    else
      (if acc = [] then ([⟨[c]⟩] : List String)
       else [⟨acc.reverse⟩, ⟨[c]⟩]) ++ word_tokenize_aux cs []

/-- Tokenize a whole string. -/
def word_tokenize (text : String) : List String := word_tokenize_aux text.data []

/-- Models Python str.isalnum: non-empty and every character
alphanumeric. -/
def pyIsAlnum (s : String) : Bool := s ≠ "" && s.data.all Char.isAlphanum

/-- Embeds the diversity computation of
SpeechAnalyzerService._analyze_vocabulary_diversity: zero for empty text,
tokenize the lowercased text, keep alphanumeric tokens, zero when none
remain, otherwise unique tokens over total tokens. -/
def analyzeVocabularyDiversity (text : String) : ℚ :=
  if text = "" then 0
  else if (word_tokenize (pyLower text)).filter pyIsAlnum = [] then 0
  else ((((word_tokenize (pyLower text)).filter pyIsAlnum).dedup.length : ℚ) /
    (((word_tokenize (pyLower text)).filter pyIsAlnum).length : ℚ))

/-! ## Composite scores (analyzer_service.py) -/

/-- Embeds SpeechAnalyzerService._calculate_confidence_score as a function
of the two fields that method reads: start at one hundred, subtract the
capped filler penalty when the filler percentage is positive, subtract the
category penalty, clamp to the unit-hundred interval. -/
def confidenceScore (filler_percentage : ℚ) (pace_category : String) : ℚ :=
  let score : ℚ := 100
  let score := if 0 < filler_percentage then score - min 30 (filler_percentage * 3) else score
  let score :=
    if pace_category = "too_slow" then score - 15
    else if pace_category = "slow" then score - 5
    else if pace_category = "fast" then score - 5
    else if pace_category = "too_fast" then score - 15
    else score
  max 0 (min 100 score)

/-- Embeds SpeechAnalyzerService._calculate_clarity_score as a function of
the two fields that method reads: start at one hundred, subtract the
category penalty, subtract the variability penalty from the first matching
band, clamp to the unit-hundred interval. -/
noncomputable def clarityScore (pace_category : String) (pace_variability : ℝ) : ℚ :=
  let score : ℚ := 100
  let score :=
    if pace_category = "too_slow" then score - 10
    else if pace_category = "slow" then score - 5
    else if pace_category = "fast" then score - 10
    else if pace_category = "too_fast" then score - 20
    else score
  let score :=
    if pace_variability > 30 then score - 15
    else if pace_variability > 20 then score - 10
    else if pace_variability < 5 then score - 5
    else score
  max 0 (min 100 score)

/-! ## Aggregator (analyzer_service.py, analyze_transcript) -/

/-- A value of the metrics dictionary: a number, or the nested
filler-count dictionary. -/
inductive PyVal where
  | num (x : ℝ)
  | countDict (d : List (String × Nat))

/-- The zeroed metrics record returned on empty input and on input with no
user segments, with exactly the keys the source dictionary literal lists;
note that it has no pace_variability and no filler_percentage key. -/
def zeroMetrics : List (String × PyVal) :=
  [("filler_words", PyVal.countDict []),
   ("total_filler_count", PyVal.num 0),
   ("words_per_minute", PyVal.num 0),
   ("total_words", PyVal.num 0),
   ("speaking_time_seconds", PyVal.num 0),
   ("vocabulary_diversity", PyVal.num 0),
   ("confidence_score", PyVal.num 0),
   ("clarity_score", PyVal.num 0)]

/-- Result of the filler-word stage _analyze_filler_words of the
aggregator. -/
structure FillerAnalysis where
  filler_words : List (String × Nat)
  total_filler_count : Nat
  filler_percentage : ℚ
  suggestions : List Suggestion

/-- Embeds SpeechAnalyzerService._analyze_filler_words: run the filler
analyzer on the text, count the words, compute the percentage and generate
the filler suggestions. -/
def analyzeFillerWords (text : String) : FillerAnalysis :=
  let counted := analyze_text text
  let total_words := count_words text
  { filler_words := counted.1
    total_filler_count := counted.2
    filler_percentage := get_filler_percentage counted.2 total_words
    suggestions := filler_generate_improvement_suggestions counted.1 counted.2 text }

/-- The combined text of the user segments, joined by single spaces in
input order. -/
def combinedText (user_segments : List Segment) : String :=
  String.intercalate " " (user_segments.map Segment.text_content)

/-- The analysis path of analyze_transcript once a non-empty list of user
segments has been extracted: combined text, total word count, total
speaking time, the three analyses, the merged metrics dictionary in the
key order of the source literal, and the concatenated suggestion list. -/
noncomputable def analyzeMain (user_segments : List Segment) :
    List (String × PyVal) × List Suggestion :=
  let combined_text := combinedText user_segments
  let total_words := count_words combined_text
  let total_speaking_time := (user_segments.map segDuration).sum
  let filler := analyzeFillerWords combined_text
  let pace := analyze_segments user_segments
  let paceSugs := pace_generate_improvement_suggestions pace
  let diversity := analyzeVocabularyDiversity combined_text
  ([("filler_words", PyVal.countDict filler.filler_words),
    ("total_filler_count", PyVal.num (filler.total_filler_count : ℝ)),
    ("words_per_minute", PyVal.num ((pace.avg_wpm : ℚ) : ℝ)),
    ("pace_variability", PyVal.num pace.pace_variability),
    ("total_words", PyVal.num (total_words : ℝ)),
    ("speaking_time_seconds", PyVal.num ((total_speaking_time : ℚ) : ℝ)),
    ("vocabulary_diversity", PyVal.num ((diversity : ℚ) : ℝ)),
    ("confidence_score",
      PyVal.num ((confidenceScore filler.filler_percentage pace.pace_category : ℚ) : ℝ)),
    ("clarity_score",
      PyVal.num ((clarityScore pace.pace_category pace.pace_variability : ℚ) : ℝ))],
   filler.suggestions ++ paceSugs)

/-- Embeds SpeechAnalyzerService.analyze_transcript: the zeroed record with
empty suggestions on empty input or when no segment is user-spoken,
otherwise the analysis path over the user segments. -/
noncomputable def analyze_transcript (transcript_segments : List Segment) :
    List (String × PyVal) × List Suggestion :=
  if transcript_segments.isEmpty then (zeroMetrics, [])
  else
    let user_segments := transcript_segments.filter Segment.is_user_speaking
    if user_segments.isEmpty then (zeroMetrics, [])
    else analyzeMain user_segments

/-! ## Claim-side definitions, following the wording of the specification -/

/-- Confidence pace-category penalty table as the specification states it:
fifteen for too_slow, five for slow, five for fast, fifteen for too_fast,
zero for optimal (and for any other label). -/
def confCatPenalty (cat : String) : ℚ :=
  if cat = "too_slow" then 15
  else if cat = "slow" then 5
  else if cat = "fast" then 5
  else if cat = "too_fast" then 15
  else 0

/-- Clarity pace-category penalty table as the specification states it:
ten for too_slow, five for slow, ten for fast, twenty for too_fast, zero
for optimal (and for any other label). -/
def clarCatPenalty (cat : String) : ℚ :=
  if cat = "too_slow" then 10
  else if cat = "slow" then 5
  else if cat = "fast" then 10
  else if cat = "too_fast" then 20
  else 0

/-- Clarity variability penalty as the specification states it, with
mutually exclusive bands checked in descending-threshold order: above
thirty subtract fifteen, above twenty and at most thirty subtract ten,
below five subtract five, otherwise zero. -/
noncomputable def clarVarPenalty (v : ℝ) : ℚ :=
  if 30 < v then 15
  else if 20 < v ∧ v ≤ 30 then 10
  else if v < 5 then 5
  else 0

/-! ## Helper lemmas about the composite scores -/

/-- The filler percentage is never negative. -/
theorem get_filler_percentage_nonneg (c w : Nat) : 0 ≤ get_filler_percentage c w := by
  unfold get_filler_percentage
  split
  · exact le_refl 0
  · positivity

/-- The confidence score computed by the aggregator equals the clamp of one
hundred minus the capped filler penalty minus the category penalty, for any
non-negative filler percentage. -/
theorem confidenceScore_eq (fp : ℚ) (hfp : 0 ≤ fp) (cat : String) :
    confidenceScore fp cat = max 0 (min 100 (100 - min 30 (fp * 3) - confCatPenalty cat)) := by
  unfold confidenceScore confCatPenalty
  by_cases h : 0 < fp
  · simp only [if_pos h]
    split_ifs <;> ring_nf
  · have h0 : fp = 0 := le_antisymm (not_lt.mp h) hfp
    subst h0
    norm_num
    split_ifs <;> norm_num

/-- The band form of the variability penalty agrees with the sequential
else-chains of the source, whose later tests are only reached when the
earlier ones fail. -/
theorem clarVarPenalty_eq_nested (v : ℝ) :
    clarVarPenalty v =
      if 30 < v then (15 : ℚ) else if 20 < v then 10 else if v < 5 then 5 else 0 := by
  unfold clarVarPenalty
  by_cases h1 : 30 < v
  · simp [h1]
  · have hle : v ≤ 30 := not_lt.mp h1
    by_cases h2 : 20 < v
    · simp [h1, h2, hle]
    · simp [h1, h2]

/-- The clarity score computed by the aggregator equals the clamp of one
hundred minus the category penalty minus the band variability penalty. -/
theorem clarityScore_eq (cat : String) (v : ℝ) :
    clarityScore cat v = max 0 (min 100 (100 - clarCatPenalty cat - clarVarPenalty v)) := by
  rw [clarVarPenalty_eq_nested]
  unfold clarityScore clarCatPenalty
  split_ifs <;> norm_num

/-! ## Helper lemmas about the pace analysis -/

/-- Characterization of the accumulation loop of analyze_segments: the
totals sum the word counts and durations of all segments, while the
per-segment list records exactly the segments of positive duration, in
order. -/
theorem foldl_paceStep (l : List Segment) (a : Nat × ℚ × List SegmentPace) :
    l.foldl paceStep a =
      (a.1 + (l.map segWordCount).sum,
       a.2.1 + (l.map segDuration).sum,
       a.2.2 ++ (l.filter (fun s => decide (0 < segDuration s))).map mkSegPace) := by
  induction l generalizing a with
  | nil => simp
  | cons s rest ih =>
    by_cases hd : 0 < segDuration s
    · simp [List.foldl_cons, ih, paceStep, hd, List.filter_cons, add_assoc, List.append_assoc]
    · simp [List.foldl_cons, ih, paceStep, hd, List.filter_cons, add_assoc]

/-- Unfolded form of analyze_segments on non-empty input. -/
theorem analyze_segments_eq (segs : List Segment) (h : segs ≠ []) :
    analyze_segments segs =
      { avg_wpm := calculate_words_per_minute ((segs.map segWordCount).sum)
          ((segs.map segDuration).sum)
        pace_variability :=
          if 1 < ((segs.filter (fun s => decide (0 < segDuration s))).map mkSegPace).length then
            npStd ((((segs.filter (fun s => decide (0 < segDuration s))).map mkSegPace)).map
              SegmentPace.wpm)
          else 0
        pace_category := classifyPace (calculate_words_per_minute ((segs.map segWordCount).sum)
          ((segs.map segDuration).sum))
        segment_paces := (segs.filter (fun s => decide (0 < segDuration s))).map mkSegPace } := by
  unfold analyze_segments
  rw [if_neg (by simpa [List.isEmpty_iff] using h)]
  simp [foldl_paceStep]

/-- The pace category is always one of the five band names. -/
theorem classifyPace_mem (v : ℚ) :
    classifyPace v ∈ ["too_slow", "slow", "optimal", "fast", "too_fast"] := by
  unfold classifyPace
  cases hf : PACE_RANGES.find? (paceBandContains v) with
  | none => simp
  | some band =>
    have hb := List.mem_of_find?_eq_some hf
    simp only [PACE_RANGES] at hb
    fin_cases hb <;> simp

/-- For a non-negative value, exactly one declared band contains it, and the
classification returns that band. -/
theorem paceBands_partition (v : ℚ) (hv : 0 ≤ v) :
    (PACE_RANGES.filter (paceBandContains v)).map Prod.fst = [classifyPace v] := by
  rcases lt_or_le v 120 with h1 | h1
  · have n2 : ¬ (120 ≤ v) := not_le.mpr h1
    have n3 : ¬ (150 ≤ v) := not_le.mpr (by linarith)
    have n4 : ¬ (180 ≤ v) := not_le.mpr (by linarith)
    have n5 : ¬ (210 ≤ v) := not_le.mpr (by linarith)
    simp [classifyPace, PACE_RANGES, paceBandContains, List.filter, List.find?, hv, h1,
      n2, n3, n4, n5]
  · rcases lt_or_le v 150 with h2 | h2
    · have p1 : ¬ (v < 120) := not_lt.mpr h1
      have n3 : ¬ (150 ≤ v) := not_le.mpr h2
      have n4 : ¬ (180 ≤ v) := not_le.mpr (by linarith)
      have n5 : ¬ (210 ≤ v) := not_le.mpr (by linarith)
      simp [classifyPace, PACE_RANGES, paceBandContains, List.filter, List.find?, hv, h1, h2,
        p1, n3, n4, n5]
    · rcases lt_or_le v 180 with h3 | h3
      · have p1 : ¬ (v < 120) := not_lt.mpr h1
        have p2 : ¬ (v < 150) := not_lt.mpr h2
        have n4 : ¬ (180 ≤ v) := not_le.mpr h3
        have n5 : ¬ (210 ≤ v) := not_le.mpr (by linarith)
        simp [classifyPace, PACE_RANGES, paceBandContains, List.filter, List.find?, hv, h1, h2,
          h3, p1, p2, n4, n5]
      · rcases lt_or_le v 210 with h4 | h4
        · have p1 : ¬ (v < 120) := not_lt.mpr h1
          have p2 : ¬ (v < 150) := not_lt.mpr h2
          have p3 : ¬ (v < 180) := not_lt.mpr h3
          have n5 : ¬ (210 ≤ v) := not_le.mpr h4
          simp [classifyPace, PACE_RANGES, paceBandContains, List.filter, List.find?, hv, h1,
            h2, h3, h4, p1, p2, p3, n5]
        · have p1 : ¬ (v < 120) := not_lt.mpr h1
          have p2 : ¬ (v < 150) := not_lt.mpr h2
          have p3 : ¬ (v < 180) := not_lt.mpr h3
          have p4 : ¬ (v < 210) := not_lt.mpr h4
          simp [classifyPace, PACE_RANGES, paceBandContains, List.filter, List.find?, hv, h1,
            h2, h3, h4, p1, p2, p3, p4]

/-- For a negative value no band matches and the defensive default fires. -/
theorem classifyPace_neg (v : ℚ) (hv : v < 0) : classifyPace v = "optimal" := by
  have n1 : ¬ ((0 : ℚ) ≤ v) := not_le.mpr hv
  have n2 : ¬ ((120 : ℚ) ≤ v) := not_le.mpr (by linarith)
  have n3 : ¬ ((150 : ℚ) ≤ v) := not_le.mpr (by linarith)
  have n4 : ¬ ((180 : ℚ) ≤ v) := not_le.mpr (by linarith)
  have n5 : ¬ ((210 : ℚ) ≤ v) := not_le.mpr (by linarith)
  simp [classifyPace, PACE_RANGES, paceBandContains, List.find?, n1, n2, n3, n4, n5]

/-- The standard deviation model written out over the reals: the square
root of the mean squared deviation from the mean. -/
theorem ratCast_list_sum (l : List ℚ) :
    ((l.sum : ℚ) : ℝ) = (l.map (fun q : ℚ => (q : ℝ))).sum := by
  induction l with
  | nil => simp
  | cons x xs ih => simp only [List.sum_cons, List.map_cons, Rat.cast_add, ih]

theorem npStd_eq (xs : List ℚ) :
    npStd xs =
      Real.sqrt ((xs.map (fun x : ℚ => ((x : ℝ) - (xs.sum : ℝ) / (xs.length : ℝ)) ^ 2)).sum
        / (xs.length : ℝ)) := by
  unfold npStd popVariance popMean
  congr 1
  rw [Rat.cast_div, ratCast_list_sum, List.map_map]
  congr 1
  · refine congrArg List.sum (List.map_congr_left ?_)
    intro x _
    simp only [Function.comp_apply]
    push_cast
    ring

/-! ## Helper lemmas about the aggregator paths -/

/-- Both early-return paths of analyze_transcript produce the zeroed record
with no suggestions. -/
theorem analyze_transcript_zero (segs : List Segment)
    (h : ∀ s ∈ segs, s.is_user_speaking = false) :
    analyze_transcript segs = (zeroMetrics, []) := by
  unfold analyze_transcript
  by_cases he : segs.isEmpty
  · rw [if_pos he]
  · rw [if_neg he]
    have hfil : segs.filter Segment.is_user_speaking = [] := by
      refine List.filter_eq_nil_iff.mpr ?_
      intro s hs
      simp [h s hs]
    simp [hfil]

/-- A witness of a user segment makes the filtered user list non-empty. -/
theorem user_filter_ne_nil {segs : List Segment}
    (h : ∃ s ∈ segs, s.is_user_speaking = true) :
    segs.filter Segment.is_user_speaking ≠ [] := by
  rcases h with ⟨s, hs, hu⟩
  intro hnil
  have hmem : s ∈ segs.filter Segment.is_user_speaking := List.mem_filter.mpr ⟨hs, hu⟩
  rw [hnil] at hmem
  exact (List.not_mem_nil s) hmem

/-- On input with at least one user segment, analyze_transcript runs the
analysis path over the filtered user segments. -/
theorem analyze_transcript_user (segs : List Segment)
    (h : segs.filter Segment.is_user_speaking ≠ []) :
    analyze_transcript segs = analyzeMain (segs.filter Segment.is_user_speaking) := by
  unfold analyze_transcript
  have hne : ¬ segs.isEmpty := by
    intro he
    rw [List.isEmpty_iff.mp he] at h
    simp at h
  rw [if_neg hne, if_neg (by simpa [List.isEmpty_iff] using h)]

/-! ## Helper lemmas about the filler matcher -/

/-- Lowercasing preserves emptiness of a string. -/
theorem pyLower_eq_empty_iff (s : String) : pyLower s = "" ↔ s = "" := by
  constructor
  · intro h
    have hdata : s.data.map Char.toLower = [] := congrArg String.data h
    have : s.data = [] := List.map_eq_nil_iff.mp hdata
    cases s
    simp_all
  · intro h
    subst h
    rfl

/-- The filler analysis of a text depends only on its lowercased form:
texts equal up to letter case receive identical filler counts. -/
theorem analyze_text_congr (s t : String) (h : pyLower s = pyLower t) :
    analyze_text s = analyze_text t := by
  unfold analyze_text
  by_cases hs : s = ""
  · subst hs
    have ht : t = "" := by
      refine (pyLower_eq_empty_iff t).mp ?_
      rw [← h]
      rfl
    subst ht
    rfl
  · have ht : t ≠ "" := by
      intro h0
      subst h0
      exact hs ((pyLower_eq_empty_iff s).mp h)
    rw [if_neg hs, if_neg ht, h]

/-- A list of non-positive rationals has non-positive sum. -/
theorem list_sum_nonpos {l : List ℚ} (h : ∀ x ∈ l, x ≤ 0) : l.sum ≤ 0 := by
  induction l with
  | nil => simp
  | cons x xs ih =>
    simp only [List.sum_cons]
    have h1 := h x (by simp)
    have h2 := ih (fun y hy => h y (by simp [hy]))
    linarith

/-! ## Claim theorems -/

/-- Claim C3: pace-category classification is a total function of the
aggregate WPM; the six boundary values resolve downward as listed; for
every non-negative value exactly one declared band contains it and the
classification returns that band (so the bands partition the non-negative
rationals and first-match order is respected); optimal is the defensive
default when no band matches, as happens for negative values; and the
category is always one of the five band names. -/
theorem claim_C3_pace_bands :
    (classifyPace (119.9 : ℚ) = "too_slow" ∧ classifyPace 120 = "slow" ∧
      classifyPace (149.9 : ℚ) = "slow" ∧ classifyPace 150 = "optimal" ∧
      classifyPace (209.9 : ℚ) = "fast" ∧ classifyPace 210 = "too_fast") ∧
    (∀ v : ℚ, 0 ≤ v →
      (PACE_RANGES.filter (paceBandContains v)).map Prod.fst = [classifyPace v]) ∧
    (∀ v : ℚ, v < 0 → classifyPace v = "optimal") ∧
    (∀ v : ℚ, classifyPace v ∈ ["too_slow", "slow", "optimal", "fast", "too_fast"]) := by
  refine ⟨⟨?_, ?_, ?_, ?_, ?_, ?_⟩, paceBands_partition, classifyPace_neg, classifyPace_mem⟩ <;>
    norm_num [classifyPace, PACE_RANGES, paceBandContains, List.find?]

/-- Witness for claim C3 at the concrete value zero. -/
theorem claim_C3_witness :
    (PACE_RANGES.filter (paceBandContains 0)).map Prod.fst = [classifyPace 0] :=
  claim_C3_pace_bands.2.1 0 le_rfl

/-- Claim C8: the WPM primitive returns zero for every non-positive
duration (in particular for duration zero), and for positive durations it
returns the word count divided by the duration in minutes, rounded to one
decimal. -/
theorem claim_C8_wpm_contract : ∀ (w : Nat) (d : ℚ),
    (d ≤ 0 → calculate_words_per_minute w d = 0) ∧
    (0 < d → calculate_words_per_minute w d = round1 ((w : ℚ) / (d / 60))) ∧
    calculate_words_per_minute w 0 = 0 := by
  intro w d
  refine ⟨fun h => ?_, fun h => ?_, ?_⟩
  · simp [calculate_words_per_minute, h]
  · simp [calculate_words_per_minute, not_le.mpr h]
  · simp [calculate_words_per_minute]

/-- Witness for claim C8 at four words over two seconds. -/
theorem claim_C8_witness :
    calculate_words_per_minute 4 2 = round1 ((4 : ℚ) / (2 / 60)) :=
  (claim_C8_wpm_contract 4 2).2.1 (by norm_num)

/-- Claim C5: the filler percentage handed to the aggregator is never
negative, and for every non-negative filler percentage and every pace
category the confidence score is the clamp to the unit-hundred interval of
one hundred minus the capped filler penalty minus the category penalty,
with penalties fifteen, five, five, fifteen and zero as tabulated. -/
theorem claim_C5_confidence :
    (∀ c w : Nat, 0 ≤ get_filler_percentage c w) ∧
    (confCatPenalty "too_slow" = 15 ∧ confCatPenalty "slow" = 5 ∧
      confCatPenalty "fast" = 5 ∧ confCatPenalty "too_fast" = 15 ∧
      confCatPenalty "optimal" = 0) ∧
    (∀ fp : ℚ, 0 ≤ fp → ∀ cat : String,
      confidenceScore fp cat =
        max 0 (min 100 (100 - min 30 (fp * 3) - confCatPenalty cat))) :=
  ⟨get_filler_percentage_nonneg, by decide, confidenceScore_eq⟩

/-- Witness for claim C5 at a fifty percent filler rate in the slow band. -/
theorem claim_C5_witness :
    confidenceScore 50 "slow" =
      max 0 (min 100 (100 - min 30 ((50 : ℚ) * 3) - confCatPenalty "slow")) :=
  claim_C5_confidence.2.2 50 (by norm_num) "slow"

/-- Claim C6: the clarity score is the clamp to the unit-hundred interval
of one hundred minus the category penalty (ten, five, ten, twenty, zero as
tabulated) minus the variability penalty, whose bands are mutually
exclusive and checked in descending-threshold order: above thirty fifteen,
above twenty and at most thirty ten, below five five, otherwise zero. -/
theorem claim_C6_clarity :
    (clarCatPenalty "too_slow" = 10 ∧ clarCatPenalty "slow" = 5 ∧
      clarCatPenalty "fast" = 10 ∧ clarCatPenalty "too_fast" = 20 ∧
      clarCatPenalty "optimal" = 0) ∧
    (∀ v : ℝ,
      (30 < v → clarVarPenalty v = 15) ∧
      (20 < v ∧ v ≤ 30 → clarVarPenalty v = 10) ∧
      (v < 5 → clarVarPenalty v = 5) ∧
      (5 ≤ v ∧ v ≤ 20 → clarVarPenalty v = 0)) ∧
    (∀ (cat : String) (v : ℝ),
      clarityScore cat v =
        max 0 (min 100 (100 - clarCatPenalty cat - clarVarPenalty v))) := by
  refine ⟨by decide, fun v => ?_, clarityScore_eq⟩
  refine ⟨fun h => ?_, fun h => ?_, fun h => ?_, fun h => ?_⟩ <;>
    · unfold clarVarPenalty
      split_ifs <;> first
        | rfl
        | (exfalso
           first
             | (rcases h with ⟨h1, h2⟩; linarith)
             | linarith)

/-- Witness for claim C6 at variability twenty-five in the fast band. -/
theorem claim_C6_witness : clarVarPenalty 25 = 10 :=
  (claim_C6_clarity.2.1 25).2.1 ⟨by norm_num, by norm_num⟩

/-- Claim C7: filler matching is case-insensitive (texts equal up to
letter case receive identical analyses), whole-word (the entry so does not
match inside something), and whole-phrase (you know matches as one unit,
once, inside did you know that, while you and know alone are not lexicon
entries). -/
theorem claim_C7_filler_matching :
    (∀ s t : String, pyLower s = pyLower t → analyze_text s = analyze_text t) ∧
    analyze_text "did you know that" = ([("you know", 1)], 1) ∧
    analyze_text "you know" = ([("you know", 1)], 1) ∧
    "you" ∉ FILLER_PHRASES ∧
    "know" ∉ FILLER_PHRASES ∧
    analyze_text "something" = ([], 0) :=
  ⟨analyze_text_congr, by decide, by decide, by decide, by decide, by decide⟩

/-- Witness for claim C7: an uppercase text gets the same analysis as its
lowercase variant. -/
theorem claim_C7_witness : analyze_text "SO what" = analyze_text "so what" :=
  claim_C7_filler_matching.1 "SO what" "so what" (by decide)

/-- Claim C9: vocabulary diversity is always within the unit interval, is
zero on the empty text and on texts with no alphanumeric token, equals one
third on a text of three equal tokens, one on three distinct tokens, and in
general is the number of distinct lowercased alphanumeric tokens over the
number of all such tokens. -/
theorem claim_C9_diversity :
    (∀ text : String,
      0 ≤ analyzeVocabularyDiversity text ∧ analyzeVocabularyDiversity text ≤ 1) ∧
    analyzeVocabularyDiversity "" = 0 ∧
    analyzeVocabularyDiversity "a a a" = 1 / 3 ∧
    analyzeVocabularyDiversity "a b c" = 1 ∧
    analyzeVocabularyDiversity "?!." = 0 ∧
    (∀ text : String, text ≠ "" →
      (word_tokenize (pyLower text)).filter pyIsAlnum ≠ [] →
      analyzeVocabularyDiversity text =
        ((((word_tokenize (pyLower text)).filter pyIsAlnum).dedup.length : ℚ) /
          (((word_tokenize (pyLower text)).filter pyIsAlnum).length : ℚ))) := by
  refine ⟨?_, by decide, ?_, ?_, by decide, ?_⟩
  · intro text
    unfold analyzeVocabularyDiversity
    by_cases h1 : text = ""
    · rw [if_pos h1]
      norm_num
    · rw [if_neg h1]
      by_cases h2 : (word_tokenize (pyLower text)).filter pyIsAlnum = []
      · rw [if_pos h2]
        norm_num
      · rw [if_neg h2]
        have hlen : 0 < ((word_tokenize (pyLower text)).filter pyIsAlnum).length :=
          List.length_pos.mpr h2
        have hded : (((word_tokenize (pyLower text)).filter pyIsAlnum).dedup).length ≤
            ((word_tokenize (pyLower text)).filter pyIsAlnum).length :=
          (List.dedup_sublist _).length_le
        constructor
        · positivity
        · rw [div_le_one (by exact_mod_cast hlen)]
          exact_mod_cast hded
  · have h : (word_tokenize (pyLower "a a a")).filter pyIsAlnum = ["a", "a", "a"] := by decide
    unfold analyzeVocabularyDiversity
    rw [h, if_neg (show ¬("a a a" = "") by decide),
      if_neg (show ¬((["a", "a", "a"] : List String) = []) by decide),
      show (["a", "a", "a"] : List String).dedup.length = 1 by decide,
      show (["a", "a", "a"] : List String).length = 3 from rfl]
    norm_num
  · have h : (word_tokenize (pyLower "a b c")).filter pyIsAlnum = ["a", "b", "c"] := by decide
    unfold analyzeVocabularyDiversity
    rw [h, if_neg (show ¬("a b c" = "") by decide),
      if_neg (show ¬((["a", "b", "c"] : List String) = []) by decide),
      show (["a", "b", "c"] : List String).dedup.length = 3 by decide,
      show (["a", "b", "c"] : List String).length = 3 from rfl]
    norm_num
  · intro text h1 h2
    unfold analyzeVocabularyDiversity
    rw [if_neg h1, if_neg h2]

/-- Witness for claim C9: the general ratio at a concrete three-token
text. -/
theorem claim_C9_witness :
    analyzeVocabularyDiversity "a b c" =
      ((((word_tokenize (pyLower "a b c")).filter pyIsAlnum).dedup.length : ℚ) /
        (((word_tokenize (pyLower "a b c")).filter pyIsAlnum).length : ℚ)) :=
  claim_C9_diversity.2.2.2.2.2 "a b c" (by decide) (by decide)

/-- Claim C4: on a non-empty segment list, the aggregate WPM is computed
from the word counts and durations of all segments (segments of
non-positive duration included), the per-segment list records exactly the
positive-duration segments, the variability is the population standard
deviation of the recorded WPMs when at least two exist and zero otherwise,
and the standard deviation model is the square root of the mean squared
deviation from the mean. -/
theorem claim_C4_pace_aggregation : ∀ segs : List Segment, segs ≠ [] →
    ((analyze_segments segs).avg_wpm =
      calculate_words_per_minute ((segs.map segWordCount).sum) ((segs.map segDuration).sum)) ∧
    ((analyze_segments segs).segment_paces =
      (segs.filter (fun s => decide (0 < segDuration s))).map mkSegPace) ∧
    (2 ≤ (segs.filter (fun s => decide (0 < segDuration s))).length →
      (analyze_segments segs).pace_variability =
        npStd ((((segs.filter (fun s => decide (0 < segDuration s))).map mkSegPace)).map
          SegmentPace.wpm)) ∧
    ((segs.filter (fun s => decide (0 < segDuration s))).length < 2 →
      (analyze_segments segs).pace_variability = 0) ∧
    (∀ xs : List ℚ, npStd xs =
      Real.sqrt ((xs.map (fun x : ℚ => ((x : ℝ) - (xs.sum : ℝ) / (xs.length : ℝ)) ^ 2)).sum
        / (xs.length : ℝ))) := by
  intro segs h
  rw [analyze_segments_eq segs h]
  refine ⟨rfl, rfl, fun h2 => ?_, fun h2 => ?_, npStd_eq⟩
  · rw [if_pos]
    simpa [List.length_map] using h2
  · rw [if_neg]
    simp only [List.length_map]
    omega

/-- Witness for claim C4 on a two-segment list with one zero-duration
segment. -/
theorem claim_C4_witness :
    (analyze_segments
        [{ text_content := "hello world", start_time := 0, end_time := 0 },
         { text_content := "one two three", start_time := 0, end_time := 2 }]).avg_wpm =
      calculate_words_per_minute
        (([({ text_content := "hello world", start_time := 0, end_time := 0 } : Segment),
           { text_content := "one two three", start_time := 0, end_time := 2 }].map
            segWordCount).sum)
        (([({ text_content := "hello world", start_time := 0, end_time := 0 } : Segment),
           { text_content := "one two three", start_time := 0, end_time := 2 }].map
            segDuration).sum) :=
  (claim_C4_pace_aggregation
    [{ text_content := "hello world", start_time := 0, end_time := 0 },
     { text_content := "one two three", start_time := 0, end_time := 2 }]
    (by decide)).1

/-- A concrete segment that is not user speech, for the zero-path
scenarios. -/
def nonUserSeg : Segment :=
  { text_content := "background noise", start_time := 0, end_time := 1,
    is_user_speaking := false, segment_id := none }

/-- Counterexample to claim C1 as stated: on a list with one non-user
segment the returned record has no pace_variability key at all (the lookup
yields none), so the claim that every numeric field of the output record,
pace_variability included, is present with value zero fails. -/
theorem claim_C1_counterexample :
    nonUserSeg.is_user_speaking = false ∧
    List.lookup "pace_variability" (analyze_transcript [nonUserSeg]).1 = none ∧
    ¬ List.lookup "pace_variability" (analyze_transcript [nonUserSeg]).1
        = some (PyVal.num 0) := by
  have hz : analyze_transcript [nonUserSeg] = (zeroMetrics, []) :=
    analyze_transcript_zero [nonUserSeg] (by decide)
  have hl : List.lookup "pace_variability" (analyze_transcript [nonUserSeg]).1 = none := by
    rw [hz]
    rfl
  refine ⟨rfl, hl, ?_⟩
  rw [hl]
  simp

/-- Claim C1 as amended: on empty input or input without user segments the
aggregator returns the fixed zeroed record and no suggestions; that record
maps its eight keys to zero (the filler dictionary to the empty dictionary)
and contains neither a pace_variability nor a filler_percentage key. -/
theorem claim_C1_zero_record : ∀ segs : List Segment,
    (∀ s ∈ segs, s.is_user_speaking = false) →
    analyze_transcript segs = (zeroMetrics, []) ∧
    List.lookup "filler_words" zeroMetrics = some (PyVal.countDict []) ∧
    List.lookup "total_filler_count" zeroMetrics = some (PyVal.num 0) ∧
    List.lookup "words_per_minute" zeroMetrics = some (PyVal.num 0) ∧
    List.lookup "total_words" zeroMetrics = some (PyVal.num 0) ∧
    List.lookup "speaking_time_seconds" zeroMetrics = some (PyVal.num 0) ∧
    List.lookup "vocabulary_diversity" zeroMetrics = some (PyVal.num 0) ∧
    List.lookup "confidence_score" zeroMetrics = some (PyVal.num 0) ∧
    List.lookup "clarity_score" zeroMetrics = some (PyVal.num 0) ∧
    List.lookup "pace_variability" zeroMetrics = none ∧
    List.lookup "filler_percentage" zeroMetrics = none := by
  intro segs h
  exact ⟨analyze_transcript_zero segs h, rfl, rfl, rfl, rfl, rfl, rfl, rfl, rfl, rfl, rfl⟩

/-- Witness for amended claim C1 at a one-segment non-user input. -/
theorem claim_C1_witness : analyze_transcript [nonUserSeg] = (zeroMetrics, []) :=
  (claim_C1_zero_record [nonUserSeg] (by decide)).1

/-- A concrete user-spoken segment for the analysis-path scenarios. -/
def userSeg : Segment :=
  { text_content := "um hello world", start_time := 0, end_time := 10,
    is_user_speaking := true, segment_id := some 1 }

/-- Counterexample to claim C2 as stated: on a list with one user segment
the merged metrics record has no filler_percentage key (the lookup yields
none), so the claim that the record contains every §3 field including a
filler percentage field fails. -/
theorem claim_C2_counterexample :
    userSeg.is_user_speaking = true ∧
    List.lookup "filler_percentage" (analyze_transcript [userSeg]).1 = none := by
  have hz : analyze_transcript [userSeg] =
      analyzeMain ([userSeg].filter Segment.is_user_speaking) :=
    analyze_transcript_user [userSeg] (by decide)
  refine ⟨rfl, ?_⟩
  rw [hz]
  rfl

/-- Claim C2 as amended: on input with at least one user segment the merged
metrics record carries the merged values words_per_minute = pace avg_wpm,
pace_variability = pace pace_variability and vocabulary_diversity = the
diversity score of the combined text, has no filler_percentage key, and
contains the remaining fields (filler counts, total filler count, total
words, speaking time, confidence and clarity scores). -/
theorem claim_C2_merged_metrics : ∀ segs : List Segment,
    (∃ s ∈ segs, s.is_user_speaking = true) →
    List.lookup "words_per_minute" (analyze_transcript segs).1 =
      some (PyVal.num ((analyze_segments (segs.filter Segment.is_user_speaking)).avg_wpm)) ∧
    List.lookup "pace_variability" (analyze_transcript segs).1 =
      some (PyVal.num
        ((analyze_segments (segs.filter Segment.is_user_speaking)).pace_variability)) ∧
    List.lookup "vocabulary_diversity" (analyze_transcript segs).1 =
      some (PyVal.num
        (analyzeVocabularyDiversity (combinedText (segs.filter Segment.is_user_speaking)))) ∧
    List.lookup "filler_percentage" (analyze_transcript segs).1 = none ∧
    (List.lookup "filler_words" (analyze_transcript segs).1).isSome = true ∧
    (List.lookup "total_filler_count" (analyze_transcript segs).1).isSome = true ∧
    (List.lookup "total_words" (analyze_transcript segs).1).isSome = true ∧
    (List.lookup "speaking_time_seconds" (analyze_transcript segs).1).isSome = true ∧
    (List.lookup "confidence_score" (analyze_transcript segs).1).isSome = true ∧
    (List.lookup "clarity_score" (analyze_transcript segs).1).isSome = true := by
  intro segs h
  have hz := analyze_transcript_user segs (user_filter_ne_nil h)
  rw [hz]
  exact ⟨rfl, rfl, rfl, rfl, rfl, rfl, rfl, rfl, rfl, rfl⟩

/-- Witness for amended claim C2 at a one-segment user input. -/
theorem claim_C2_witness :
    List.lookup "words_per_minute" (analyze_transcript [userSeg]).1 =
      some (PyVal.num ((analyze_segments ([userSeg].filter Segment.is_user_speaking)).avg_wpm)) :=
  (claim_C2_merged_metrics [userSeg] (by decide)).1

/-- The pace report for a transcript whose pace was unmeasurable: aggregate
WPM zero, variability zero, category too_slow, no recorded per-segment
paces. -/
noncomputable def tooSlowReport : PaceReport :=
  { avg_wpm := 0, pace_variability := 0, pace_category := "too_slow", segment_paces := [] }

/-- The pace report produced when every user segment has non-positive
duration: aggregate WPM zero, variability zero, category too_slow, no
recorded per-segment paces. -/
theorem analyze_segments_zero_duration (u : List Segment) (hune : u ≠ [])
    (hdu : ∀ s ∈ u, segDuration s ≤ 0) :
    analyze_segments u = tooSlowReport := by
  unfold tooSlowReport
  have hsum : (u.map segDuration).sum ≤ 0 := by
    refine list_sum_nonpos ?_
    intro x hx
    rcases List.mem_map.mp hx with ⟨s, hs, rfl⟩
    exact hdu s hs
  have havg : calculate_words_per_minute ((u.map segWordCount).sum) ((u.map segDuration).sum)
      = 0 := by
    simp [calculate_words_per_minute, hsum]
  have hfil : u.filter (fun s => decide (0 < segDuration s)) = [] := by
    refine List.filter_eq_nil_iff.mpr ?_
    intro s hs
    simpa using not_lt.mpr (hdu s hs)
  have hcat : classifyPace 0 = "too_slow" := by
    norm_num [classifyPace, PACE_RANGES, paceBandContains, List.find?]
  rw [analyze_segments_eq u hune, hfil, havg]
  simp [hcat]

/-- Claim C10: on a transcript with at least one user segment where no
segment has positive duration, the pace report has aggregate WPM zero and
category too_slow (never no_data), the aggregate suggestion list contains a
priority-four pace suggestion, the confidence score carries the fifteen
point too_slow penalty, and the clarity score is eighty-five (ten off for
too_slow and five off for zero variability), although no pace was
measurable. -/
theorem claim_C10_unmeasurable_pace : ∀ segs : List Segment,
    (∃ s ∈ segs, s.is_user_speaking = true) →
    (∀ s ∈ segs, segDuration s ≤ 0) →
    (analyze_segments (segs.filter Segment.is_user_speaking)).avg_wpm = 0 ∧
    (analyze_segments (segs.filter Segment.is_user_speaking)).pace_category = "too_slow" ∧
    (∃ sug ∈ (analyze_transcript segs).2,
      sug.suggestion_type = "pace" ∧ sug.priority_level = 4) ∧
    List.lookup "confidence_score" (analyze_transcript segs).1 =
      some (PyVal.num ((max 0 (min 100 (100 - min 30
        ((analyzeFillerWords
          (combinedText (segs.filter Segment.is_user_speaking))).filler_percentage * 3)
        - 15)) : ℚ))) ∧
    List.lookup "clarity_score" (analyze_transcript segs).1 =
      some (PyVal.num ((85 : ℚ))) := by
  intro segs hex hdur
  have hune : segs.filter Segment.is_user_speaking ≠ [] := user_filter_ne_nil hex
  have hdu : ∀ s ∈ segs.filter Segment.is_user_speaking, segDuration s ≤ 0 :=
    fun s hs => hdur s (List.mem_of_mem_filter hs)
  have hreport := analyze_segments_zero_duration _ hune hdu
  have hz := analyze_transcript_user segs hune
  have hcatr : tooSlowReport.pace_category = "too_slow" := rfl
  have hvarr : tooSlowReport.pace_variability = (0 : ℝ) := rfl
  refine ⟨by rw [hreport]; rfl, by rw [hreport]; rfl, ?_, ?_, ?_⟩
  · -- the priority-four too_slow suggestion is in the merged list
    have h2 : (analyze_transcript segs).2 =
        (analyzeFillerWords (combinedText (segs.filter Segment.is_user_speaking))).suggestions
          ++ pace_generate_improvement_suggestions
              (analyze_segments (segs.filter Segment.is_user_speaking)) := by
      rw [hz]
      rfl
    have hsug : pace_generate_improvement_suggestions tooSlowReport =
        [{ suggestion_type := "pace"
           suggestion_text :=
             "Your pace of " ++ toString (0 : ℚ) ++
               " words per minute is too slow, which may cause listeners to lose interest. Aim to increase your speaking pace slightly."
           priority_level := 4 }] := by
      unfold pace_generate_improvement_suggestions tooSlowReport
      norm_num
      decide
    rw [h2, hreport, hsug]
    exact ⟨_, List.mem_append_right _ (List.mem_singleton_self _), rfl, rfl⟩
  · -- the confidence score with the fifteen point too_slow penalty
    have h1 : List.lookup "confidence_score" (analyze_transcript segs).1 =
        some (PyVal.num ((confidenceScore
          (analyzeFillerWords
            (combinedText (segs.filter Segment.is_user_speaking))).filler_percentage
          (analyze_segments (segs.filter Segment.is_user_speaking)).pace_category : ℚ))) := by
      rw [hz]
      rfl
    rw [h1, hreport, hcatr]
    have hfp : 0 ≤ (analyzeFillerWords
        (combinedText (segs.filter Segment.is_user_speaking))).filler_percentage :=
      get_filler_percentage_nonneg _ _
    rw [confidenceScore_eq _ hfp "too_slow",
      show confCatPenalty "too_slow" = 15 from by norm_num [confCatPenalty]]
  · -- the clarity score of eighty-five
    have h1 : List.lookup "clarity_score" (analyze_transcript segs).1 =
        some (PyVal.num ((clarityScore
          (analyze_segments (segs.filter Segment.is_user_speaking)).pace_category
          (analyze_segments (segs.filter Segment.is_user_speaking)).pace_variability : ℚ))) := by
      rw [hz]
      rfl
    rw [h1, hreport, hcatr, hvarr]
    have hc : clarityScore "too_slow" (0 : ℝ) = 85 := by
      rw [clarityScore_eq,
        show clarCatPenalty "too_slow" = 10 from by norm_num [clarCatPenalty],
        show clarVarPenalty (0 : ℝ) = 5 from by
          unfold clarVarPenalty
          norm_num]
      norm_num
    rw [hc]

/-- Witness for claim C10 at a single user segment of zero duration. -/
theorem claim_C10_witness :
    (analyze_segments
      ([{ text_content := "hello world", start_time := 5, end_time := 5,
          is_user_speaking := true }].filter Segment.is_user_speaking)).pace_category
      = "too_slow" :=
  (claim_C10_unmeasurable_pace
    [{ text_content := "hello world", start_time := 5, end_time := 5,
       is_user_speaking := true }]
    (by decide)
    (by
      intro s hs
      rw [List.mem_singleton] at hs
      subst hs
      norm_num [segDuration])).2.1

end SpeechCoach
